import Mathlib

/-!
Verification development for the bblfsh native driver
(vendor/gopkg.in/bblfsh/sdk.v2/driver/native/native.go).

The Go code is shallowly embedded: Go strings that carry raw bytes are
modelled as lists of byte values (GoStr), the standard base64 codec used by
Encoding.Encode and Encoding.Decode is modelled explicitly, and the effects
performed by Start, Parse and Close on the child process and its pipes are
modelled by explicit environments that fix the outcome of each external call
together with traces that record which calls were made.
-/

namespace Native

/-- Byte strings: a Go string viewed as its byte values (each below 256). -/
abbrev GoStr := List Nat

/-- A byte string is well formed when every byte value is below 256. -/
abbrev GoStr.WF (s : GoStr) : Prop := ∀ x ∈ s, x < 256

/-- Standard base64 alphabet: sextet value to ASCII code
(A-Z, a-z, 0-9, plus, slash), as used by encoding/base64.StdEncoding. -/
def b64byte (s : Nat) : Nat :=
  if s < 26 then 65 + s
  else if s < 52 then 97 + (s - 26)
  else if s < 62 then 48 + (s - 52)
  else if s = 62 then 43
  else 47

/-- Inverse alphabet lookup: ASCII code back to sextet value, none for
characters outside the standard alphabet. -/
def b64inv (c : Nat) : Option Nat :=
  if 65 ≤ c ∧ c ≤ 90 then some (c - 65)
  else if 97 ≤ c ∧ c ≤ 122 then some (26 + (c - 97))
  else if 48 ≤ c ∧ c ≤ 57 then some (52 + (c - 48))
  else if c = 43 then some 62
  else if c = 47 then some 63
  else none

/-- ASCII code of the padding character. -/
def b64pad : Nat := 61

/-- base64.StdEncoding.EncodeToString on a byte list: groups of three bytes
become four alphabet bytes; a final group of one or two bytes is padded. -/
def b64encodeBytes : GoStr → GoStr
  | [] => []
  | [a] => [b64byte (a / 4), b64byte (a % 4 * 16), b64pad, b64pad]
  | [a, b] => [b64byte (a / 4), b64byte (a % 4 * 16 + b / 16), b64byte (b % 16 * 4), b64pad]
  | a :: b :: c :: rest =>
      b64byte (a / 4) :: b64byte (a % 4 * 16 + b / 16) ::
        b64byte (b % 16 * 4 + c / 64) :: b64byte (c % 64) :: b64encodeBytes rest

/-- base64.StdEncoding.DecodeString on a byte list: consumes four bytes at a
time, accepts padding only at the very end, fails on anything else. -/
def b64decodeBytes : GoStr → Option GoStr
  | [] => some []
  | c1 :: c2 :: c3 :: c4 :: rest =>
      match b64inv c1, b64inv c2 with
      | some s1, some s2 =>
          if c3 = b64pad then
            if c4 = b64pad then
              if rest = [] then some [s1 * 4 + s2 / 16] else none
            else none
          else
            match b64inv c3 with
            | some s3 =>
                if c4 = b64pad then
                  if rest = [] then some [s1 * 4 + s2 / 16, s2 % 16 * 16 + s3 / 4] else none
                else
                  match b64inv c4 with
                  | some s4 =>
                      match b64decodeBytes rest with
                      | some bs =>
                          some ((s1 * 4 + s2 / 16) :: (s2 % 16 * 16 + s3 / 4) ::
                            (s3 % 4 * 64 + s4) :: bs)
                      | none => none
                  | none => none
            | none => none
      | _, _ => none
  | _ => none

theorem b64inv_b64byte : ∀ s < 64, b64inv (b64byte s) = some s := by decide

theorem b64byte_ne_pad : ∀ s < 64, b64byte s ≠ b64pad := by decide

/-- Round trip of the base64 codec on well-formed byte strings. -/
theorem b64_roundtrip : ∀ s : GoStr, s.WF → b64decodeBytes (b64encodeBytes s) = some s
  | [], _ => rfl
  | [a], h => by
      have ha : a < 256 := h a (by simp)
      have h1 := b64inv_b64byte (a / 4) (by omega)
      have h2 := b64inv_b64byte (a % 4 * 16) (by omega)
      simp only [b64encodeBytes, b64decodeBytes, h1, h2]
      simp
      omega
  | [a, b], h => by
      have ha : a < 256 := h a (by simp)
      have hb : b < 256 := h b (by simp)
      have h1 := b64inv_b64byte (a / 4) (by omega)
      have h2 := b64inv_b64byte (a % 4 * 16 + b / 16) (by omega)
      have h3 := b64inv_b64byte (b % 16 * 4) (by omega)
      have hne := b64byte_ne_pad (b % 16 * 4) (by omega)
      simp only [b64encodeBytes, b64decodeBytes, h1, h2, h3, if_neg hne]
      simp
      omega
  | a :: b :: c :: rest, h => by
      have ha : a < 256 := h a (by simp)
      have hb : b < 256 := h b (by simp)
      have hc : c < 256 := h c (by simp)
      have h1 := b64inv_b64byte (a / 4) (by omega)
      have h2 := b64inv_b64byte (a % 4 * 16 + b / 16) (by omega)
      have h3 := b64inv_b64byte (b % 16 * 4 + c / 64) (by omega)
      have h4 := b64inv_b64byte (c % 64) (by omega)
      have hne3 := b64byte_ne_pad (b % 16 * 4 + c / 64) (by omega)
      have hne4 := b64byte_ne_pad (c % 64) (by omega)
      have ih := b64_roundtrip rest
        (fun x hx => h x (by simp only [List.mem_cons] at hx ⊢; tauto))
      simp only [b64encodeBytes, b64decodeBytes, h1, h2, h3, h4, if_neg hne3, if_neg hne4, ih]
      simp
      refine ⟨by omega, by omega, by omega⟩

/-- Encoding is a string tag, as in the Go source (type Encoding string). -/
abbrev Encoding := String

/-- The utf8 encoding tag. -/
def UTF8 : Encoding := "utf8"

/-- The base64 encoding tag. -/
def Base64 : Encoding := "base64"

/-- Encoding.Encode from the source: utf8 is the identity, base64 encodes the
raw bytes with the standard alphabet, any other tag is an invalid-encoding
error. -/
def Encoding.Encode (e : Encoding) (s : GoStr) : Except String GoStr :=
  if e = UTF8 then .ok s
  else if e = Base64 then .ok (b64encodeBytes s)
  else .error ("invalid Encoding: " ++ e)

/-- Encoding.Decode from the source: utf8 is the identity, base64 decodes with
the standard alphabet and propagates a corrupt-input error, any other tag is
an invalid-encoding error. -/
def Encoding.Decode (e : Encoding) (s : GoStr) : Except String GoStr :=
  if e = UTF8 then .ok s
  else if e = Base64 then
    match b64decodeBytes s with
    | some b => .ok b
    | none => .error "illegal base64 data"
  else .error ("invalid Encoding: " ++ e)

/-- Default location of the native driver binary (package variable Binary). -/
def Binary : String := "/opt/driver/bin/native"

/-- The visible state of a Driver: the binary path, the configured encoding
and the running flag. The process handle, pipes and framer are modelled by
the call environments below. -/
structure Driver where
  bin : String
  ec : Encoding
  running : Bool
deriving DecidableEq

/-- NewDriverAt from the source: an empty binary path falls back to Binary,
an empty encoding falls back to UTF8, and the driver starts out not
running (Go zero value of the running field). -/
def NewDriverAt (bin : String) (enc : Encoding) : Driver :=
  { bin := if bin = "" then Binary else bin
    ec := if enc = "" then UTF8 else enc
    running := false }

/-- NewDriver from the source: NewDriverAt with an empty binary path. -/
def NewDriver (enc : Encoding) : Driver := NewDriverAt "" enc

/-- The opaque tree value (nodes.Node), produced by the external tree
decoder; Parse only passes it through. -/
inductive Node where
  | null
  | value (s : String)
deriving DecidableEq

/-- The wire status tag (type status string): lower-cased on decode. -/
abbrev status := String

/-- status.UnmarshalJSON case-folds the wire string to lower case
(strings.ToLower, character by character). -/
def statusUnmarshal (s : String) : status := String.mk (s.data.map Char.toLower)

def statusOK : status := "ok"

def statusError : status := "error"

def statusFatal : status := "fatal"

/-- A decoded response as it appears on the wire, before status folding:
a raw status string, the ordered error strings, and the decoded tree. -/
structure wireResponse where
  rawStatus : String
  errors : List String
  ast : Node
deriving DecidableEq

/-- parseResponse after UnmarshalJSON: the status has been case-folded. -/
structure parseResponse where
  Status : status
  Errors : List String
  AST : Node
deriving DecidableEq

/-- Decoding a response applies status.UnmarshalJSON case folding to the
status field and passes errors and tree through. -/
def decodeResponse (w : wireResponse) : parseResponse :=
  { Status := statusUnmarshal w.rawStatus, Errors := w.errors, AST := w.ast }

/-- The errors Parse can return. ErrNotRunning, PartialParse and MultiError
correspond to the error kinds of the source; EncodingError carries an
Encoding.Encode failure, TransportError a jsonlines write or read failure
propagated as is, CompositeError the fmt.Errorf value built after a failed
write and a successful raw recovery read, UnsupportedStatus the default
branch of the status switch. -/
inductive ParseError where
  | ErrNotRunning
  | EncodingError (msg : String)
  | TransportError (msg : String)
  | CompositeError (writeErr : String) (raw : String)
  | PartialParse (ast : Node) (errs : List String)
  | MultiError (errs : List String)
  | UnsupportedStatus (s : String)
deriving DecidableEq

/-- The rendered text of a ParseError, as characters. CompositeError renders
fmt.Errorf with the original write error and the recovered raw text;
UnsupportedStatus renders fmt.Errorf naming the offending status. -/
def ParseError.textChars : ParseError → List Char
  | .ErrNotRunning => "native driver is not running".data
  | .EncodingError m => m.data
  | .TransportError m => m.data
  | .CompositeError w r => "error: ".data ++ w.data ++ "; ".data ++ r.data
  | .PartialParse _ errs => (String.intercalate "; " errs).data
  | .MultiError errs => (String.intercalate "; " errs).data
  | .UnsupportedStatus s => "unsupported status: ".data ++ s.data

/-- Outcomes of the external calls a single Parse may perform: the result of
the jsonlines request write (none is success), the result of the raw
recovery read, and the result of the typed response read. -/
structure PipeEnv where
  writeErr : Option String
  rawRead : Except String String
  respRead : Except String wireResponse

/-- How many external calls Parse performed: request writes, raw recovery
reads, typed response reads. -/
structure Trace where
  writes : Nat
  rawReads : Nat
  respReads : Nat
deriving DecidableEq

/-- Driver.Parse from the source: reject when not running, encode the
content, write the request; on a write failure do one raw recovery read and
return either the read error or the composite error; on a successful write
read the response and classify it by status. The Trace records the calls
made on the pipes. -/
def Driver.Parse (d : Driver) (env : PipeEnv) (src : GoStr) :
    Except ParseError Node × Trace :=
  if d.running = false then (.error .ErrNotRunning, ⟨0, 0, 0⟩)
  else
    match d.ec.Encode src with
    | .error e => (.error (.EncodingError e), ⟨0, 0, 0⟩)
    | .ok _ =>
      match env.writeErr with
      | some werr =>
        match env.rawRead with
        | .error rerr => (.error (.TransportError rerr), ⟨1, 1, 0⟩)
        | .ok raw => (.error (.CompositeError werr raw), ⟨1, 1, 0⟩)
      | none =>
        match env.respRead with
        | .error rerr => (.error (.TransportError rerr), ⟨1, 0, 1⟩)
        | .ok w =>
          let r := decodeResponse w
          if r.Status = statusOK then (.ok r.AST, ⟨1, 0, 1⟩)
          else if r.Status = statusError then
            (.error (.PartialParse r.AST r.Errors), ⟨1, 0, 1⟩)
          else if r.Status = statusFatal then
            (.error (.MultiError r.Errors), ⟨1, 0, 1⟩)
          else (.error (.UnsupportedStatus r.Status), ⟨1, 0, 1⟩)

/-- Errors surfaced by the lifecycle calls: either an os.PathError whose
inner error may be os.ErrClosed, or any other error value. -/
inductive OSErr where
  | pathError (isErrClosed : Bool) (msg : String)
  | generic (msg : String)
deriving DecidableEq

/-- Outcomes of the three external calls Close performs, in order: closing
the stdin pipe, waiting for the child process, closing the stdout pipe
(none is success). -/
structure CloseEnv where
  stdinClose : Option OSErr
  wait : Option OSErr
  stdoutClose : Option OSErr
deriving DecidableEq

/-- Driver.Close from the source: remember a stdin close error in last, wait
for the process and close stdout, return the wait error if any, then filter
an already-closed path error on stdout, overwrite last with a remaining
stdout error, and return last. The driver value itself is untouched. -/
def Driver.Close (d : Driver) (env : CloseEnv) : Option OSErr × Driver :=
  let last : Option OSErr := env.stdinClose
  let err := env.wait
  let err2 := env.stdoutClose
  match err with
  | some e => (some e, d)
  | none =>
    let err2 := match err2 with
      | some (.pathError true _) => none
      | x => x
    match err2 with
    | some e => (some e, d)
    | none => (last, d)

/-- The spec wording for the Close result: the first error encountered
across the three steps in execution order (stdin close, wait, stdout close),
with an already-closed condition on the stdout close treated as success. -/
def closeSpecFirstError (env : CloseEnv) : Option OSErr :=
  let stdoutErr := match env.stdoutClose with
    | some (.pathError true _) => none
    | x => x
  match env.stdinClose with
  | some e => some e
  | none =>
    match env.wait with
    | some e => some e
    | none => stdoutErr

/-- Outcomes of the external calls Start performs: acquiring the stdin pipe,
acquiring the stdout pipe, and starting the child process (none is
success). -/
structure StartEnv where
  stdinPipeErr : Option String
  stdoutPipeErr : Option String
  startErr : Option String
deriving DecidableEq

/-- What a Start call did: the returned error, which pipes were acquired and
which of the acquired pipes were closed again before returning. -/
structure StartResult where
  err : Option String
  stdinAcquired : Bool
  stdoutAcquired : Bool
  stdinClosed : Bool
  stdoutClosed : Bool
deriving DecidableEq

/-- Driver.Start from the source: acquire the stdin pipe, then the stdout
pipe (closing stdin on failure), then start the process; on a start failure
close both pipes; on success mark the driver running. -/
def Driver.Start (d : Driver) (env : StartEnv) : StartResult × Driver :=
  match env.stdinPipeErr with
  | some e => (⟨some e, false, false, false, false⟩, d)
  | none =>
    match env.stdoutPipeErr with
    | some e => (⟨some e, true, false, true, false⟩, d)
    | none =>
      match env.startErr with
      | some e => (⟨some e, true, true, true, true⟩, d)
      | none => (⟨none, true, true, false, false⟩, { d with running := true })

/-- Close returns the driver value unchanged in every branch. -/
theorem close_driver_unchanged (d : Driver) (env : CloseEnv) :
    (d.Close env).2 = d := by
  rcases env with ⟨si, w, so⟩
  cases w with
  | some e => rfl
  | none =>
    cases so with
    | none => rfl
    | some o =>
      cases o with
      | pathError b m => cases b <;> rfl
      | generic m => rfl

/-- The Close result in the priority order the code uses: the process
wait error first, then the stdout close error with the already-closed path
error filtered out, then the stdin close error. -/
def closeCodeOrder (env : CloseEnv) : Option OSErr :=
  match env.wait with
  | some e => some e
  | none =>
    match (match env.stdoutClose with
           | some (.pathError true _) => none
           | x => x) with
    | some e => some e
    | none => env.stdinClose

/-- Claim C1: with the driver running, the content encoded, the request
written and a response decoded, Parse classifies by the case-folded status:
ok returns the decoded tree with no error, error returns a PartialParse
error carrying the tree and the ordered error strings, fatal returns a
MultiError carrying exactly the error strings. -/
theorem parse_status_classification (d : Driver) (env : PipeEnv) (src : GoStr)
    (w : wireResponse) (str : GoStr)
    (hr : d.running = true) (henc : d.ec.Encode src = .ok str)
    (hw : env.writeErr = none) (hresp : env.respRead = .ok w) :
    (statusUnmarshal w.rawStatus = statusOK →
      (d.Parse env src).1 = .ok w.ast) ∧
    (statusUnmarshal w.rawStatus = statusError →
      (d.Parse env src).1 = .error (.PartialParse w.ast w.errors)) ∧
    (statusUnmarshal w.rawStatus = statusFatal →
      (d.Parse env src).1 = .error (.MultiError w.errors)) := by
  refine ⟨fun h => ?_, fun h => ?_, fun h => ?_⟩ <;>
    simp [Driver.Parse, hr, henc, hw, hresp, decodeResponse, h,
      statusOK, statusError, statusFatal]

/-- Concrete run of parse_status_classification on a response with wire
status OK. -/
theorem parse_status_classification_witness :
    ((Driver.mk Binary UTF8 true).Parse
        ⟨none, .ok "", .ok ⟨"OK", [], .null⟩⟩ []).1 = .ok Node.null :=
  (parse_status_classification (Driver.mk Binary UTF8 true)
      ⟨none, .ok "", .ok ⟨"OK", [], .null⟩⟩ [] ⟨"OK", [], .null⟩ []
      rfl rfl rfl rfl).1 (by decide)

/-- Claim C2: when the request write fails, Parse does exactly one raw
recovery read and no typed read, never retries the write, and returns no
tree: a failing recovery read propagates the read error, a successful one
yields a composite error whose text contains both the write error and the
recovered raw text. -/
theorem parse_write_failure_recovery (d : Driver) (env : PipeEnv) (src : GoStr)
    (str : GoStr) (werr : String)
    (hr : d.running = true) (henc : d.ec.Encode src = .ok str)
    (hw : env.writeErr = some werr) :
    (d.Parse env src).2.writes = 1 ∧
    (d.Parse env src).2.rawReads = 1 ∧
    (d.Parse env src).2.respReads = 0 ∧
    (∀ rerr, env.rawRead = .error rerr →
      (d.Parse env src).1 = .error (.TransportError rerr)) ∧
    (∀ raw, env.rawRead = .ok raw →
      (d.Parse env src).1 = .error (.CompositeError werr raw) ∧
      List.IsInfix werr.data (ParseError.CompositeError werr raw).textChars ∧
      List.IsInfix raw.data (ParseError.CompositeError werr raw).textChars) := by
  rcases hraw : env.rawRead with rerr | raw
  · have hres : d.Parse env src = (.error (.TransportError rerr), ⟨1, 1, 0⟩) := by
      simp [Driver.Parse, hr, henc, hw, hraw]
    refine ⟨by rw [hres], by rw [hres], by rw [hres], ?_, ?_⟩
    · intro r hr2; cases hr2; rw [hres]
    · intro r hr2; cases hr2
  · have hres : d.Parse env src =
        (.error (.CompositeError werr raw), ⟨1, 1, 0⟩) := by
      simp [Driver.Parse, hr, henc, hw, hraw]
    refine ⟨by rw [hres], by rw [hres], by rw [hres], ?_, ?_⟩
    · intro r hr2; cases hr2
    · intro r hr2
      cases hr2
      refine ⟨by rw [hres],
        ⟨"error: ".data, "; ".data ++ raw.data, by simp [ParseError.textChars]⟩,
        ⟨"error: ".data ++ werr.data ++ "; ".data, [], by simp [ParseError.textChars]⟩⟩

/-- Concrete run of parse_write_failure_recovery where the recovery read
returns the text core dumped. -/
theorem parse_write_failure_recovery_witness :
    ((Driver.mk Binary UTF8 true).Parse
        ⟨some "broken pipe", .ok "core dumped", .error "EOF"⟩ []).1 =
      .error (.CompositeError "broken pipe" "core dumped") ∧
    List.IsInfix "broken pipe".data
      (ParseError.CompositeError "broken pipe" "core dumped").textChars ∧
    List.IsInfix "core dumped".data
      (ParseError.CompositeError "broken pipe" "core dumped").textChars :=
  (parse_write_failure_recovery (Driver.mk Binary UTF8 true)
      ⟨some "broken pipe", .ok "core dumped", .error "EOF"⟩ [] [] "broken pipe"
      rfl rfl rfl).2.2.2.2 "core dumped" rfl

/-- Claim C3: Decode inverts Encode for the utf8 and base64 tags on
well-formed byte strings, and any other tag makes both Encode and Decode
fail with the invalid-encoding error. -/
theorem encoding_roundtrip (e : Encoding) (s : GoStr) (hs : s.WF) :
    (e = UTF8 ∨ e = Base64 →
      ∃ w, e.Encode s = .ok w ∧ e.Decode w = .ok s) ∧
    (e ≠ UTF8 → e ≠ Base64 →
      e.Encode s = .error ("invalid Encoding: " ++ e) ∧
      e.Decode s = .error ("invalid Encoding: " ++ e)) := by
  constructor
  · rintro (he | he) <;> subst he
    · exact ⟨s, by simp [Encoding.Encode, Encoding.Decode]⟩
    · refine ⟨b64encodeBytes s, ?_, ?_⟩ <;>
        simp [Encoding.Encode, Encoding.Decode, UTF8, Base64, b64_roundtrip s hs]
  · intro h1 h2
    constructor <;> simp [Encoding.Encode, Encoding.Decode, h1, h2]

/-- Concrete runs of encoding_roundtrip: base64 round trip on the bytes of
hi, and the invalid-encoding failures for the tag ascii. -/
theorem encoding_roundtrip_witness :
    (∃ w, Encoding.Encode Base64 [104, 105] = .ok w ∧
      Encoding.Decode Base64 w = .ok [104, 105]) ∧
    Encoding.Encode "ascii" [] = .error ("invalid Encoding: " ++ "ascii") ∧
    Encoding.Decode "ascii" [] = .error ("invalid Encoding: " ++ "ascii") :=
  ⟨(encoding_roundtrip Base64 [104, 105] (by decide)).1 (Or.inr rfl),
   (encoding_roundtrip "ascii" [] (by decide)).2 (by decide) (by decide)⟩

/-- Claim C5: a driver whose running flag is not set rejects Parse with
ErrNotRunning and performs no writes and no reads at all. -/
theorem parse_not_running (d : Driver) (env : PipeEnv) (src : GoStr)
    (h : d.running = false) :
    (d.Parse env src).1 = .error .ErrNotRunning ∧
    (d.Parse env src).2 = ⟨0, 0, 0⟩ := by
  simp [Driver.Parse, h]

/-- Concrete run of parse_not_running on a freshly constructed driver. -/
theorem parse_not_running_witness :
    ((NewDriver UTF8).Parse ⟨none, .ok "", .error "EOF"⟩ []).1 =
      .error .ErrNotRunning ∧
    ((NewDriver UTF8).Parse ⟨none, .ok "", .error "EOF"⟩ []).2 = ⟨0, 0, 0⟩ :=
  parse_not_running (NewDriver UTF8) ⟨none, .ok "", .error "EOF"⟩ [] rfl

/-- Claim C6: a decoded response whose case-folded status is none of ok,
error, fatal makes Parse return no tree and an error naming the case-folded
status value. -/
theorem parse_unknown_status (d : Driver) (env : PipeEnv) (src : GoStr)
    (w : wireResponse) (str : GoStr)
    (hr : d.running = true) (henc : d.ec.Encode src = .ok str)
    (hw : env.writeErr = none) (hresp : env.respRead = .ok w)
    (h1 : statusUnmarshal w.rawStatus ≠ statusOK)
    (h2 : statusUnmarshal w.rawStatus ≠ statusError)
    (h3 : statusUnmarshal w.rawStatus ≠ statusFatal) :
    (d.Parse env src).1 =
      .error (.UnsupportedStatus (statusUnmarshal w.rawStatus)) ∧
    List.IsInfix (statusUnmarshal w.rawStatus).data
      (ParseError.UnsupportedStatus (statusUnmarshal w.rawStatus)).textChars := by
  constructor
  · simp [Driver.Parse, hr, henc, hw, hresp, decodeResponse, h1, h2, h3]
  · exact ⟨"unsupported status: ".data, [], by simp [ParseError.textChars]⟩

/-- Concrete run of parse_unknown_status on the wire status UNKNOWN, whose
case-folded form unknown is named in the error. -/
theorem parse_unknown_status_witness :
    statusUnmarshal "UNKNOWN" = "unknown" ∧
    ((Driver.mk Binary UTF8 true).Parse
        ⟨none, .ok "", .ok ⟨"UNKNOWN", [], .null⟩⟩ []).1 =
      .error (.UnsupportedStatus "unknown") :=
  ⟨by decide,
   by
    have h := (parse_unknown_status (Driver.mk Binary UTF8 true)
      ⟨none, .ok "", .ok ⟨"UNKNOWN", [], .null⟩⟩ [] ⟨"UNKNOWN", [], .null⟩ []
      rfl rfl rfl rfl (by decide) (by decide) (by decide)).1
    rwa [show statusUnmarshal "UNKNOWN" = "unknown" by decide] at h⟩

/-- Claim C4 counterexample: when the stdin close fails with E1 and the wait
fails with E2, Close returns E2 while the first error encountered in step
order is E1, so Close does not return the first error. -/
theorem close_first_error_counterexample :
    ((NewDriver UTF8).Close
        ⟨some (.generic "E1"), some (.generic "E2"), none⟩).1 =
      some (.generic "E2") ∧
    closeSpecFirstError ⟨some (.generic "E1"), some (.generic "E2"), none⟩ =
      some (.generic "E1") ∧
    ((NewDriver UTF8).Close
        ⟨some (.generic "E1"), some (.generic "E2"), none⟩).1 ≠
      closeSpecFirstError ⟨some (.generic "E1"), some (.generic "E2"), none⟩ :=
  ⟨rfl, rfl, by decide⟩

/-- Claim C4 amended: Close performs its three steps in order and returns
the wait error if any, otherwise the stdout close error with an
already-closed path error treated as success, otherwise the stdin close
error; in particular when stdin close and wait succeed and the stdout close
reports already-closed, Close returns nil. -/
theorem close_error_priority (d : Driver) (env : CloseEnv) :
    (d.Close env).1 = closeCodeOrder env ∧
    (d.Close ⟨none, none, some (.pathError true "file already closed")⟩).1 =
      none := by
  refine ⟨?_, rfl⟩
  rcases env with ⟨si, w, so⟩
  cases w with
  | some e => rfl
  | none =>
    cases so with
    | none => rfl
    | some o =>
      cases o with
      | pathError b m => cases b <;> rfl
      | generic m => rfl

/-- Claim C7: whenever Start returns an error, every pipe acquired during
that call has been closed again and the running flag of the driver is left
untouched. -/
theorem start_failure_cleanup (d : Driver) (env : StartEnv) (e : String)
    (h : (d.Start env).1.err = some e) :
    ((d.Start env).1.stdinAcquired = true → (d.Start env).1.stdinClosed = true) ∧
    ((d.Start env).1.stdoutAcquired = true → (d.Start env).1.stdoutClosed = true) ∧
    (d.Start env).2.running = d.running := by
  rcases env with ⟨si, so, st⟩
  cases si <;> cases so <;> cases st <;> simp_all [Driver.Start]

/-- Concrete run of start_failure_cleanup where the child process fails to
start after both pipes were acquired. -/
theorem start_failure_cleanup_witness :
    ((NewDriver UTF8).Start ⟨none, none, some "exec failure"⟩).1.stdinClosed =
      true ∧
    ((NewDriver UTF8).Start ⟨none, none, some "exec failure"⟩).1.stdoutClosed =
      true ∧
    ((NewDriver UTF8).Start ⟨none, none, some "exec failure"⟩).2.running =
      false :=
  have h := start_failure_cleanup (NewDriver UTF8)
    ⟨none, none, some "exec failure"⟩ "exec failure" rfl
  ⟨h.1 rfl, h.2.1 rfl, h.2.2.trans rfl⟩

/-- Claim C8: Close leaves the running flag unchanged, so Parse after Close
on a running driver is not rejected with ErrNotRunning and still performs
its request write against the closed pipes. -/
theorem close_preserves_running (d : Driver) (cenv : CloseEnv) (penv : PipeEnv)
    (src : GoStr) (str : GoStr)
    (hr : d.running = true) (henc : d.ec.Encode src = .ok str) :
    ((d.Close cenv).2).running = d.running ∧
    (((d.Close cenv).2).Parse penv src).1 ≠ .error .ErrNotRunning ∧
    (((d.Close cenv).2).Parse penv src).2.writes = 1 := by
  rw [close_driver_unchanged d cenv]
  refine ⟨rfl, ?_⟩
  rcases hwe : penv.writeErr with _ | werr
  · rcases hresp : penv.respRead with rerr | w
    · simp [Driver.Parse, hr, henc, hwe, hresp]
    · simp only [Driver.Parse, hr, henc, hwe, hresp]
      split_ifs <;> simp_all
  · rcases hraw : penv.rawRead with rerr | raw <;>
      simp [Driver.Parse, hr, henc, hwe, hraw]

/-- Concrete run of close_preserves_running: Parse after Close on a running
driver reaches the pipe write instead of failing with ErrNotRunning. -/
theorem close_preserves_running_witness :
    (((Driver.mk Binary UTF8 true).Close ⟨none, none, none⟩).2).running = true ∧
    ((((Driver.mk Binary UTF8 true).Close ⟨none, none, none⟩).2).Parse
        ⟨none, .ok "", .error "EOF"⟩ []).1 ≠ .error .ErrNotRunning ∧
    ((((Driver.mk Binary UTF8 true).Close ⟨none, none, none⟩).2).Parse
        ⟨none, .ok "", .error "EOF"⟩ []).2.writes = 1 :=
  close_preserves_running (Driver.mk Binary UTF8 true) ⟨none, none, none⟩
    ⟨none, .ok "", .error "EOF"⟩ [] [] rfl rfl

/-- Claim C10: NewDriverAt substitutes the package default binary path for
an empty path and utf8 for an empty encoding, NewDriver is NewDriverAt with
an empty path, the constructed driver is not running, and the default path
is /opt/driver/bin/native. -/
theorem new_driver_defaults :
    (∀ e, (NewDriverAt "" e).bin = Binary) ∧
    (∀ b, (NewDriverAt b "").ec = UTF8) ∧
    (∀ e, NewDriver e = NewDriverAt "" e) ∧
    (∀ b e, (NewDriverAt b e).running = false) ∧
    Binary = "/opt/driver/bin/native" := by
  refine ⟨fun e => by simp [NewDriverAt], fun b => by simp [NewDriverAt],
    fun e => rfl, fun b e => rfl, rfl⟩

end Native
